import Mathlib

/-!
Verification of the `loader.rs` example of the `vulkan-bindings` repository:
a shallow embedding of the loader's data model and operations, with the
native driver modelled as an oracle (each native entry point is a record
field supplied by the environment).  Machine integers are modelled as
`Nat`/`Int`; a `VkResult` status is an `Int` with `0` the success sentinel.
-/

/-- Teardown events observable at the native boundary, emitted by the
`Drop` implementations: `vkDestroyDevice`, `vkDestroyInstance`, and the
release (dlclose) of the dynamic library mapping. -/
inductive Event where
  | destroyDevice (device : Nat)
  | destroyInstance (inst : Nat)
  | releaseLibrary
deriving DecidableEq, Repr

/-- Outcome of a Rust computation that may panic (via `.unwrap()`):
either it panics, or it returns a value. -/
inductive Outcome (α : Type) where
  | panics
  | returns (a : α)
deriving DecidableEq, Repr

/-- Models `Option::unwrap()` followed by a continuation: `none` panics. -/
def unwrapO {α β : Type} : Option α → (α → Outcome β) → Outcome β
  | none, _ => Outcome.panics
  | some a, k => k a

/-- Models a native fill call writing `written` through a raw pointer into
the front of buffer `buf`: the buffer keeps its length (a Rust `Vec`'s
length is unchanged by writes through `as_mut_ptr`), and cells past the
written region keep their previous contents.  A driver writing more than
the capacity would be out-of-bounds at the native level; the model caps
the write at the buffer length. -/
def writeInto {α : Type} (buf written : List α) : List α :=
  written.take buf.length ++ buf.drop written.length

theorem writeInto_length {α : Type} (buf written : List α) :
    (writeInto buf written).length = buf.length := by
  simp [writeInto]
  omega

namespace CString

/-- Models `std::ffi::CString::new` on a byte string: fails exactly when the
input contains a NUL byte, otherwise appends the terminator. -/
def new (s : List Nat) : Option (List Nat) :=
  if 0 ∈ s then none else some (s ++ [0])

theorem new_eq_none {s : List Nat} (h : 0 ∈ s) : new s = none := by
  simp [new, h]

theorem new_of_not_mem {s : List Nat} (h : 0 ∉ s) : new s = some (s ++ [0]) := by
  simp [new, h]

/-- Models `xs.iter().map(|s| CString::new(s).unwrap()).collect()`: the
result is `none` exactly when some element makes `CString::new` fail (in
Rust, the first such element panics the collect). -/
def newAll : List (List Nat) → Option (List (List Nat))
  | [] => some []
  | s :: ss =>
    match new s, newAll ss with
    | some c, some cs => some (c :: cs)
    | _, _ => none

theorem newAll_eq_none {ss : List (List Nat)} (h : ∃ s ∈ ss, 0 ∈ s) :
    newAll ss = none := by
  induction ss with
  | nil => simp at h
  | cons a as ih =>
      rcases h with ⟨s, hs, hmem⟩
      rcases List.mem_cons.mp hs with rfl | hs
      · simp [newAll, new_eq_none hmem]
      · cases ha : new a with
        | none => simp [newAll, ha]
        | some av => simp [newAll, ha, ih ⟨s, hs, hmem⟩]

theorem newAll_of_not_mem {ss : List (List Nat)} (h : ∀ s ∈ ss, 0 ∉ s) :
    newAll ss = some (ss.map (· ++ [0])) := by
  induction ss with
  | nil => simp [newAll]
  | cons a as ih =>
      have ha : new a = some (a ++ [0]) := new_of_not_mem (h a (by simp))
      have has : newAll as = some (as.map (· ++ [0])) :=
        ih (fun s hs => h s (List.mem_cons_of_mem _ hs))
      simp [newAll, ha, has]

end CString

/-- Models `CStr::from_ptr(p).to_bytes()`: scan memory from the pointer up to
(excluding) the first NUL byte.  `mem` is the byte sequence laid out in
memory starting at the pointer. -/
def cStrToBytes (mem : List Nat) : List Nat :=
  mem.takeWhile (fun b => b != 0)

theorem cStrToBytes_append_of_mem {l : List Nat} (t : List Nat) (h : 0 ∈ l) :
    cStrToBytes (l ++ t) = cStrToBytes l := by
  induction l with
  | nil => simp at h
  | cons b bs ih =>
      by_cases hb : b = 0
      · subst hb; simp [cStrToBytes]
      · have : 0 ∈ bs := by
          rcases List.mem_cons.mp h with h0 | h0
          · exact absurd h0.symm hb
          · exact h0
        simp only [cStrToBytes, List.cons_append, List.takeWhile_cons] at *
        simp only [bne_iff_ne, ne_eq, hb, not_false_eq_true, if_true, ite_true] at *
        rw [ih this]

theorem cStrToBytes_append_of_not_mem {l : List Nat} (t : List Nat) (h : 0 ∉ l) :
    cStrToBytes (l ++ t) = l ++ cStrToBytes t := by
  induction l with
  | nil => simp
  | cons b bs ih =>
      have hb : b ≠ 0 := fun hb => h (by simp [hb])
      have hbs : 0 ∉ bs := fun hm => h (List.mem_cons_of_mem _ hm)
      simp only [cStrToBytes, List.cons_append, List.takeWhile_cons] at *
      simp only [bne_iff_ne, ne_eq, hb, not_false_eq_true, ite_true] at *
      rw [ih hbs]

/-- The Unicode replacement character U+FFFD. -/
def replacementChar : Char := Char.ofNat 0xFFFD

/-- Is `b` a UTF-8 continuation byte (`0x80..=0xBF`)? -/
def utf8ContByte (b : Nat) : Bool :=
  decide (0x80 ≤ b ∧ b ≤ 0xBF)

/-- Valid second byte of a multi-byte UTF-8 sequence starting with `b0`,
per the restricted ranges that exclude overlong encodings and surrogates
(`E0: A0..BF`, `ED: 80..9F`, `F0: 90..BF`, `F4: 80..8F`). -/
def utf8SecondByteOk (b0 b1 : Nat) : Bool :=
  if b0 = 0xE0 then decide (0xA0 ≤ b1 ∧ b1 ≤ 0xBF)
  else if b0 = 0xED then decide (0x80 ≤ b1 ∧ b1 ≤ 0x9F)
  else if b0 = 0xF0 then decide (0x90 ≤ b1 ∧ b1 ≤ 0xBF)
  else if b0 = 0xF4 then decide (0x80 ≤ b1 ∧ b1 ≤ 0x8F)
  else utf8ContByte b1

/-- Models `String::from_utf8_lossy`: decode a byte sequence to characters,
replacing each maximal invalid subpart by U+FFFD (substitution of maximal
subparts, as the Rust standard library does).  Total: never fails. -/
def utf8Lossy : List Nat → List Char
  | [] => []
  | b0 :: rest =>
    if b0 < 0x80 then Char.ofNat b0 :: utf8Lossy rest
    else if b0 < 0xC2 then replacementChar :: utf8Lossy rest
    else if b0 < 0xE0 then
      match rest with
      | [] => [replacementChar]
      | b1 :: r1 =>
        if utf8ContByte b1 then
          Char.ofNat ((b0 - 0xC0) * 0x40 + (b1 - 0x80)) :: utf8Lossy r1
        else replacementChar :: utf8Lossy (b1 :: r1)
    else if b0 < 0xF0 then
      match rest with
      | [] => [replacementChar]
      | b1 :: r1 =>
        if utf8SecondByteOk b0 b1 then
          match r1 with
          | [] => [replacementChar]
          | b2 :: r2 =>
            if utf8ContByte b2 then
              Char.ofNat ((b0 - 0xE0) * 0x1000 + (b1 - 0x80) * 0x40 + (b2 - 0x80))
                :: utf8Lossy r2
            else replacementChar :: utf8Lossy (b2 :: r2)
        else replacementChar :: utf8Lossy (b1 :: r1)
    else if b0 < 0xF5 then
      match rest with
      | [] => [replacementChar]
      | b1 :: r1 =>
        if utf8SecondByteOk b0 b1 then
          match r1 with
          | [] => [replacementChar]
          | b2 :: r2 =>
            if utf8ContByte b2 then
              match r2 with
              | [] => [replacementChar]
              | b3 :: r3 =>
                if utf8ContByte b3 then
                  Char.ofNat ((b0 - 0xF0) * 0x40000 + (b1 - 0x80) * 0x1000
                      + (b2 - 0x80) * 0x40 + (b3 - 0x80)) :: utf8Lossy r3
                else replacementChar :: utf8Lossy (b3 :: r3)
            else replacementChar :: utf8Lossy (b2 :: r2)
        else replacementChar :: utf8Lossy (b1 :: r1)
    else replacementChar :: utf8Lossy rest

/-- `pub fn string_from_c_str(c_str: &[i8]) -> String`: reads the slice as a
pointer into memory (`CStr::from_ptr` scans for a NUL terminator and may run
past the end of the slice), then decodes lossily.  `mem_rest` models whatever
bytes happen to lie in memory immediately after the slice. -/
def string_from_c_str (c_str mem_rest : List Nat) : String :=
  String.mk (utf8Lossy (cStrToBytes (c_str ++ mem_rest)))

namespace Vk

/-- `VK_SUCCESS`: the single success sentinel among the integer status codes. -/
def SUCCESS : Int := 0

/-- `VK_MAX_EXTENSION_NAME_SIZE`. -/
def MAX_EXTENSION_NAME_SIZE : Nat := 256

/-- `VK_MAX_DESCRIPTION_SIZE`. -/
def MAX_DESCRIPTION_SIZE : Nat := 256

def STRUCTURE_TYPE_APPLICATION_INFO : Nat := 0
def STRUCTURE_TYPE_INSTANCE_CREATE_INFO : Nat := 1
def STRUCTURE_TYPE_DEVICE_QUEUE_CREATE_INFO : Nat := 2
def STRUCTURE_TYPE_DEVICE_CREATE_INFO : Nat := 3

/-- `vk::make_version(major, minor, patch)`: packed version integer. -/
def make_version (major minor patch : Nat) : Nat :=
  (major <<< 22) + (minor <<< 12) + patch

/-- Modelled from the spec: Capability Record for an extension (the ABI
struct layer of the bindings crate is not under `src/`): fixed-length
name buffer plus a version integer. -/
structure ExtensionProperties where
  extensionName : List Nat
  specVersion : Nat
deriving DecidableEq, Repr

/-- Modelled from the spec: Capability Record for a layer: fixed-length
name and description buffers plus version integers. -/
structure LayerProperties where
  layerName : List Nat
  specVersion : Nat
  implementationVersion : Nat
  description : List Nat
deriving DecidableEq, Repr

/-- Modelled from the spec: queue-family descriptor record (flags,
queue count, timestamp bits, minimum image-transfer granularity). -/
structure QueueFamilyProperties where
  queueFlags : Nat
  queueCount : Nat
  timestampValidBits : Nat
  minImageTransferGranularity : Nat × Nat × Nat
deriving DecidableEq, Repr

/-- Modelled from the spec: feature-enable record (a block of boolean
feature toggles, modelled as a bit list). -/
structure PhysicalDeviceFeatures where
  features : List Bool
deriving DecidableEq, Repr

/-- `vk::ApplicationInfo` as built by `Instance::new` (pointers to
NUL-terminated strings are modelled as the byte strings themselves;
the null `pNext` pointer carries no data and is omitted). -/
structure ApplicationInfo where
  sType : Nat
  pApplicationName : List Nat
  applicationVersion : Nat
  pEngineName : List Nat
  engineVersion : Nat
  apiVersion : Nat
deriving DecidableEq, Repr

/-- `vk::InstanceCreateInfo` as built by `Instance::new`. -/
structure InstanceCreateInfo where
  sType : Nat
  flags : Nat
  pApplicationInfo : ApplicationInfo
  enabledLayerCount : Nat
  ppEnabledLayerNames : List (List Nat)
  enabledExtensionCount : Nat
  ppEnabledExtensionNames : List (List Nat)
deriving DecidableEq, Repr

/-- `vk::DeviceQueueCreateInfo` as built by `Device::new`
(`pQueuePriorities` is a pointer to a shared priority array, modelled
as the array value). -/
structure DeviceQueueCreateInfo where
  sType : Nat
  flags : Nat
  queueFamilyIndex : Nat
  queueCount : Nat
  pQueuePriorities : List Float

/-- `vk::DeviceCreateInfo` as built by `Device::new` (`pEnabledFeatures`
is a nullable pointer, modelled as an `Option`). -/
structure DeviceCreateInfo where
  sType : Nat
  flags : Nat
  queueCreateInfoCount : Nat
  pQueueCreateInfos : List DeviceQueueCreateInfo
  enabledLayerCount : Nat
  ppEnabledLayerNames : List (List Nat)
  enabledExtensionCount : Nat
  ppEnabledExtensionNames : List (List Nat)
  pEnabledFeatures : Option PhysicalDeviceFeatures

/-- Oracle for one two-call enumeration entry point of the native driver:
`queryCount` is the behavior of the call with a null output buffer
(status returned, count written through the count pointer); `fillBuf n`
is the behavior of the call with a buffer of capacity `n` (status,
count written back, entries written into the buffer). -/
structure EnumCall (α : Type) where
  queryCount : Int × Nat
  fillBuf : Nat → Int × Nat × List α

/-- Oracle for `vkGetPhysicalDeviceQueueFamilyProperties`: same two-call
shape but with no status code. -/
structure QfpCall where
  queryCount : Nat
  fillBuf : Nat → Nat × List QueueFamilyProperties

/-- Modelled from the spec: the library-tier function table
(`vk::LibraryCommands`, resolved once from the bootstrap resolver with a
null scope handle; the bindings crate is not under `src/`).  Each entry's
native behavior is an oracle supplied by the environment. -/
structure LibraryCommands where
  EnumerateInstanceExtensionProperties : EnumCall ExtensionProperties
  EnumerateInstanceLayerProperties : EnumCall LayerProperties
  CreateInstance : InstanceCreateInfo → Int × Nat

/-- Modelled from the spec: the connection-tier function table
(`vk::InstanceCommands`).  `GetDeviceProcAddr` is the device-scoped
resolver: it takes a device handle and a symbol id and returns a raw
entry point (symbol ids: 0 = vkGetDeviceQueue, 1 = vkQueueWaitIdle,
2 = vkDestroyDevice). -/
structure InstanceCommands where
  DestroyInstance : Nat
  EnumeratePhysicalDevices : EnumCall Nat
  EnumerateDeviceExtensionProperties : Nat → EnumCall ExtensionProperties
  GetPhysicalDeviceQueueFamilyProperties : Nat → QfpCall
  CreateDevice : Nat → DeviceCreateInfo → Int × Nat
  GetDeviceProcAddr : Nat → Nat → Nat

/-- Modelled from the spec: the device-tier function table
(`vk::DeviceCommands`): raw entry points resolved once at device
creation. -/
structure DeviceCommands where
  GetDeviceQueue : Nat
  QueueWaitIdle : Nat
  DestroyDevice : Nat
deriving DecidableEq, Repr

/-- `vk::DeviceCommands::new(GetDeviceProcAddr, device)`: resolve each
device-tier entry point through the device-scoped resolver (symbol ids
as in `InstanceCommands.GetDeviceProcAddr`). -/
def DeviceCommands.new (getDeviceProcAddr : Nat → Nat → Nat) (device : Nat) :
    DeviceCommands :=
  { GetDeviceQueue := getDeviceProcAddr device 0
    QueueWaitIdle := getDeviceProcAddr device 1
    DestroyDevice := getDeviceProcAddr device 2 }

end Vk

/-- `VkExtensionProperties::default()`: zeroed name buffer and version. -/
def ExtensionPropertiesDefault : Vk.ExtensionProperties :=
  { extensionName := List.replicate Vk.MAX_EXTENSION_NAME_SIZE 0
    specVersion := 0 }

/-- `VkLayerProperties::default()`: zeroed buffers and versions. -/
def LayerPropertiesDefault : Vk.LayerProperties :=
  { layerName := List.replicate Vk.MAX_EXTENSION_NAME_SIZE 0
    specVersion := 0
    implementationVersion := 0
    description := List.replicate Vk.MAX_DESCRIPTION_SIZE 0 }

/-- `struct Vulkan`: the Library Handle / Driver Bootstrap.  It owns the
dynamic library mapping (whose release is observable as
`Event.releaseLibrary` when the value is dropped), the bootstrap
resolver, and the library-tier function table. -/
structure Vulkan where
  GetInstanceProcAddr : Nat
  commands : Vk.LibraryCommands

/-- Drop of a `Vulkan` value: `libloading::Library`'s drop releases the
OS mapping of the driver library. -/
def Vulkan.dropTrace (_v : Vulkan) : List Event :=
  [Event.releaseLibrary]

/-- `struct Instance`: the Connection Handle.  It owns the `Vulkan`
bootstrap (field `vk`), the native instance handle (field `inst`, the source's `instance`,
renamed since that is a keyword here), and the connection-tier
function table. -/
structure Instance where
  vk : Vulkan
  inst : Nat
  commands : Vk.InstanceCommands

/-- `impl Drop for Instance`: the drop body calls
`DestroyInstance(self.instance, null)`; afterwards Rust drops the fields
in declaration order, so the owned `Vulkan` (and with it the library
mapping) is released strictly after the native destroy call. -/
def Instance.dropTrace (i : Instance) : List Event :=
  Event.destroyInstance i.inst :: Vulkan.dropTrace i.vk

/-- `struct Device`: the Device Handle.  Its only fields are the native
device and the device-tier function table — it stores no reference to
the `Instance` that created it. -/
structure Device where
  device : Nat
  commands : Vk.DeviceCommands
deriving DecidableEq, Repr

/-- `impl Drop for Device`: calls `DestroyDevice(self.device, null)`;
the `Device` owns nothing else, so no further teardown events. -/
def Device.dropTrace (d : Device) : List Event :=
  [Event.destroyDevice d.device]

/-- `Vulkan::enum_extensions`: two-call enumeration.  First call with a null
buffer obtains a count; on success a buffer of that many default-initialized
records is allocated and the second call fills it; the count written back by
the second call is stored into the local `num_properties` but the returned
`Vec` keeps the length chosen after the first call. -/
def Vulkan.enum_extensions (self : Vulkan) :
    Except Int (List Vk.ExtensionProperties) :=
  let c := self.commands.EnumerateInstanceExtensionProperties
  let result := c.queryCount.1
  let num_properties := c.queryCount.2
  if result = Vk.SUCCESS then
    let ext_props := List.replicate num_properties ExtensionPropertiesDefault
    let fill := c.fillBuf num_properties
    if fill.1 = Vk.SUCCESS then Except.ok (writeInto ext_props fill.2.2)
    else Except.error fill.1
  else Except.error result

/-- `Vulkan::enum_layers`: same two-call shape, distinct symbol. -/
def Vulkan.enum_layers (self : Vulkan) :
    Except Int (List Vk.LayerProperties) :=
  let c := self.commands.EnumerateInstanceLayerProperties
  let result := c.queryCount.1
  let num_properties := c.queryCount.2
  if result = Vk.SUCCESS then
    let layer_props := List.replicate num_properties LayerPropertiesDefault
    let fill := c.fillBuf num_properties
    if fill.1 = Vk.SUCCESS then Except.ok (writeInto layer_props fill.2.2)
    else Except.error fill.1
  else Except.error result

/-- The `vk::InstanceCreateInfo` built by `Instance::new` from the
NUL-terminated strings (`layers.len()` and `extensions.len()` equal the
lengths of the pointer arrays built from them). -/
def Instance.buildInfo (app_name_cstr engine_name_cstr : List Nat)
    (layers_cstr extensions_cstr : List (List Nat)) : Vk.InstanceCreateInfo :=
  { sType := Vk.STRUCTURE_TYPE_INSTANCE_CREATE_INFO
    flags := 0
    pApplicationInfo :=
      { sType := Vk.STRUCTURE_TYPE_APPLICATION_INFO
        pApplicationName := app_name_cstr
        applicationVersion := 1
        pEngineName := engine_name_cstr
        engineVersion := 1
        apiVersion := Vk.make_version 1 2 133 }
    enabledLayerCount := layers_cstr.length
    ppEnabledLayerNames := layers_cstr
    enabledExtensionCount := extensions_cstr.length
    ppEnabledExtensionNames := extensions_cstr }

/-- `Instance::new`: converts the name strings with
`CString::new(..).unwrap()` (panicking on interior NUL), builds the
creation record, invokes the native `CreateInstance`, and on success moves
the `Vulkan` bootstrap into the returned `Instance` and resolves the
connection-tier table scoped to the new instance.  On a non-success status
it returns the status; the `Vulkan` value, having been moved into the
call, is dropped as the call returns (second component: teardown events
emitted by the call itself).  `resolveCommands` — modelled from the spec:
`vk::InstanceCommands::new(vk.GetInstanceProcAddr, instance)`, the
resolution of the connection-tier function table via the bootstrap
resolver (the bindings crate is not under `src/`, so resolution is an
environment-supplied function of the new instance handle). -/
def Instance.new (vkv : Vulkan) (resolveCommands : Nat → Vk.InstanceCommands)
    (app_name engine_name : List Nat) (layers extensions : List (List Nat)) :
    Outcome (Except Int Instance × List Event) :=
  unwrapO (CString.new app_name) fun app_name_cstr =>
  unwrapO (CString.new engine_name) fun engine_name_cstr =>
  unwrapO (CString.newAll layers) fun layers_cstr =>
  unwrapO (CString.newAll extensions) fun extensions_cstr =>
  let instance_info :=
    Instance.buildInfo app_name_cstr engine_name_cstr layers_cstr extensions_cstr
  let created := vkv.commands.CreateInstance instance_info
  if created.1 = Vk.SUCCESS then
    Outcome.returns
      (Except.ok { vk := vkv, inst := created.2, commands := resolveCommands created.2 }, [])
  else
    Outcome.returns (Except.error created.1, Vulkan.dropTrace vkv)

/-- `Instance::enum_physical_devices`: two-call enumeration of adapter
handles (`vk::PhysicalDevice::default()` is the zero handle). -/
def Instance.enum_physical_devices (self : Instance) :
    Except Int (List Nat) :=
  let c := self.commands.EnumeratePhysicalDevices
  let result := c.queryCount.1
  let num_devices := c.queryCount.2
  if result = Vk.SUCCESS then
    let devices := List.replicate num_devices 0
    let fill := c.fillBuf num_devices
    if fill.1 = Vk.SUCCESS then Except.ok (writeInto devices fill.2.2)
    else Except.error fill.1
  else Except.error result

/-- `Instance::enum_physical_device_extensions`: two-call enumeration
scoped to one adapter. -/
def Instance.enum_physical_device_extensions (self : Instance) (device : Nat) :
    Except Int (List Vk.ExtensionProperties) :=
  let c := self.commands.EnumerateDeviceExtensionProperties device
  let result := c.queryCount.1
  let num_properties := c.queryCount.2
  if result = Vk.SUCCESS then
    let ext_props := List.replicate num_properties ExtensionPropertiesDefault
    let fill := c.fillBuf num_properties
    if fill.1 = Vk.SUCCESS then Except.ok (writeInto ext_props fill.2.2)
    else Except.error fill.1
  else Except.error result

/-- The buffer `Instance::enum_physical_device_queue_family_properties`
allocates before the fill call:
`vec![MaybeUninit::<QueueFamilyProperties>::uninit().assume_init(); n]`.
A cell is `none` when it holds uninitialized memory and `some p` when the
record `p` was actually written. -/
def qfpAlloc (n : Nat) : List (Option Vk.QueueFamilyProperties) :=
  List.replicate n none

/-- `Instance::enum_physical_device_queue_family_properties`: the two-call
query with no status code.  The returned vector is the uninitialized
allocation overwritten, in place, by whatever records the driver's fill
call writes; slots the driver does not write still hold uninitialized
memory (`none`). -/
def Instance.enum_physical_device_queue_family_properties
    (self : Instance) (device : Nat) :
    List (Option Vk.QueueFamilyProperties) :=
  let c := self.commands.GetPhysicalDeviceQueueFamilyProperties device
  let num_properties := c.queryCount
  let properties := qfpAlloc num_properties
  writeInto properties ((c.fillBuf num_properties).2.map some)

/-- `Device::new`'s `max_queues`:
`queues.iter().fold(0u32, |max, (_, x)| *x.max(&max))`. -/
def Device.maxQueues (queues : List (Nat × Nat)) : Nat :=
  queues.foldl (fun max p => Nat.max p.2 max) 0

/-- `Device::new`'s shared priority array: `vec![1.0; max_queues as usize]`. -/
def Device.priorities (queues : List (Nat × Nat)) : List Float :=
  List.replicate (Device.maxQueues queues) 1.0

/-- `Device::new`'s per-family creation records: one
`vk::DeviceQueueCreateInfo` per requested `(family_index, count)` pair,
each pointing at the shared priority array. -/
def Device.queueInfos (queues : List (Nat × Nat)) :
    List Vk.DeviceQueueCreateInfo :=
  queues.map fun p =>
    { sType := Vk.STRUCTURE_TYPE_DEVICE_QUEUE_CREATE_INFO
      flags := 0
      queueFamilyIndex := p.1
      queueCount := p.2
      pQueuePriorities := Device.priorities queues }

/-- The `vk::DeviceCreateInfo` built by `Device::new`. -/
def Device.buildInfo (queues : List (Nat × Nat))
    (extensions_cstr : List (List Nat))
    (features : Option Vk.PhysicalDeviceFeatures) : Vk.DeviceCreateInfo :=
  { sType := Vk.STRUCTURE_TYPE_DEVICE_CREATE_INFO
    flags := 0
    queueCreateInfoCount := (Device.queueInfos queues).length
    pQueueCreateInfos := Device.queueInfos queues
    enabledLayerCount := 0
    ppEnabledLayerNames := []
    enabledExtensionCount := extensions_cstr.length
    ppEnabledExtensionNames := extensions_cstr
    pEnabledFeatures := features }

/-- `Device::new`: builds the queue creation records and extension
strings (`CString::new(..).unwrap()` panics on interior NUL), invokes the
native `CreateDevice` through the connection's table, and on success
returns a `Device` holding only the native device handle and the
device-tier table resolved via the connection's `GetDeviceProcAddr`.
On a non-success status it returns exactly that status. -/
def Device.new (inst : Instance) (physical_device : Nat)
    (extensions : List (List Nat)) (queues : List (Nat × Nat))
    (features : Option Vk.PhysicalDeviceFeatures) :
    Outcome (Except Int Device) :=
  unwrapO (CString.newAll extensions) fun extensions_cstr =>
  let info := Device.buildInfo queues extensions_cstr features
  let created := inst.commands.CreateDevice physical_device info
  if created.1 = Vk.SUCCESS then
    Outcome.returns
      (Except.ok
        { device := created.2
          commands := Vk.DeviceCommands.new inst.commands.GetDeviceProcAddr created.2 })
  else Outcome.returns (Except.error created.1)

/-! ### Concrete driver fixtures used by witnesses and counterexamples -/

/-- A queue-family record some driver might report. -/
def demoQfp : Vk.QueueFamilyProperties :=
  { queueFlags := 1, queueCount := 4, timestampValidBits := 64
    minImageTransferGranularity := (1, 1, 1) }

/-- Extension enumeration that reports 2, then fills 2. -/
def demoExtCall : Vk.EnumCall Vk.ExtensionProperties :=
  { queryCount := (0, 2)
    fillBuf := fun _ => (0, 2, [ExtensionPropertiesDefault, ExtensionPropertiesDefault]) }

/-- Layer enumeration that reports 1, then fills 1. -/
def demoLayerCall : Vk.EnumCall Vk.LayerProperties :=
  { queryCount := (0, 1), fillBuf := fun _ => (0, 1, [LayerPropertiesDefault]) }

/-- Adapter enumeration that reports one adapter, handle 5. -/
def demoAdapterCall : Vk.EnumCall Nat :=
  { queryCount := (0, 1), fillBuf := fun _ => (0, 1, [5]) }

/-- Queue-family query whose count shrinks between the two calls: the
first call reports 2, the fill call writes only 1 record. -/
def demoQfpCall : Vk.QfpCall :=
  { queryCount := 2, fillBuf := fun _ => (1, [demoQfp]) }

/-- A well-behaved driver bootstrap. -/
def demoVulkan : Vulkan :=
  { GetInstanceProcAddr := 0
    commands :=
      { EnumerateInstanceExtensionProperties := demoExtCall
        EnumerateInstanceLayerProperties := demoLayerCall
        CreateInstance := fun _ => (0, 11) } }

/-- A connection-tier table over the demo driver; the device-scoped
resolver returns `100 + 10 * device + symbol`. -/
def demoInstCommands : Vk.InstanceCommands :=
  { DestroyInstance := 0
    EnumeratePhysicalDevices := demoAdapterCall
    EnumerateDeviceExtensionProperties := fun _ => demoExtCall
    GetPhysicalDeviceQueueFamilyProperties := fun _ => demoQfpCall
    CreateDevice := fun _ _ => (0, 7)
    GetDeviceProcAddr := fun d s => 100 + 10 * d + s }

/-- A connection with native handle 1. -/
def demoInstance : Instance :=
  { vk := demoVulkan, inst := 1, commands := demoInstCommands }

/-- A distinct connection (native handle 2) over the same tables. -/
def demoInstance2 : Instance :=
  { vk := demoVulkan, inst := 2, commands := demoInstCommands }

/-- A driver whose extension enumeration shrinks between the two calls:
the count call reports 2, the fill call writes 1 record and writes back
count 1. -/
def shrinkVulkan : Vulkan :=
  { GetInstanceProcAddr := 0
    commands :=
      { EnumerateInstanceExtensionProperties :=
          { queryCount := (0, 2), fillBuf := fun _ => (0, 1, [ExtensionPropertiesDefault]) }
        EnumerateInstanceLayerProperties := demoLayerCall
        CreateInstance := fun _ => (0, 11) } }

/-- A driver whose extension count call fails with status -1. -/
def failCountVulkan : Vulkan :=
  { GetInstanceProcAddr := 0
    commands :=
      { EnumerateInstanceExtensionProperties :=
          { queryCount := (-1, 0), fillBuf := fun _ => (0, 0, []) }
        EnumerateInstanceLayerProperties := demoLayerCall
        CreateInstance := fun _ => (0, 11) } }

/-- A driver whose extension fill call fails with status -4 after a
successful count call. -/
def failFillVulkan : Vulkan :=
  { GetInstanceProcAddr := 0
    commands :=
      { EnumerateInstanceExtensionProperties :=
          { queryCount := (0, 2), fillBuf := fun _ => (-4, 0, []) }
        EnumerateInstanceLayerProperties := demoLayerCall
        CreateInstance := fun _ => (0, 11) } }

/-- A driver whose `CreateInstance` fails with status -3. -/
def failVulkan : Vulkan :=
  { GetInstanceProcAddr := 0
    commands :=
      { EnumerateInstanceExtensionProperties := demoExtCall
        EnumerateInstanceLayerProperties := demoLayerCall
        CreateInstance := fun _ => (-3, 0) } }

/-- A connection whose `CreateDevice` fails with status -2. -/
def failDevInstance : Instance :=
  { vk := demoVulkan, inst := 3
    commands :=
      { DestroyInstance := 0
        EnumeratePhysicalDevices := demoAdapterCall
        EnumerateDeviceExtensionProperties := fun _ => demoExtCall
        GetPhysicalDeviceQueueFamilyProperties := fun _ => demoQfpCall
        CreateDevice := fun _ _ => (-2, 0)
        GetDeviceProcAddr := fun d s => 100 + 10 * d + s } }

/-! ### Claims -/

/-- The zeroed (default-initialized) queue-family record — what a
default-initializing allocation would put in every slot. -/
def zeroedQfp : Vk.QueueFamilyProperties :=
  { queueFlags := 0
    queueCount := 0
    timestampValidBits := 0
    minImageTransferGranularity := (0, 0, 0) }

/-- Claim C1, counterexample: with a driver whose extension count shrinks
between the two calls (count call reports 2 with success, fill call
succeeds, writes one record and writes back count 1), both native calls
return success but `enum_extensions` returns a sequence of length 2 — the
first call's count — not the second call's count 1. -/
theorem spec_C1_cex :
    shrinkVulkan.commands.EnumerateInstanceExtensionProperties.queryCount.1 = Vk.SUCCESS ∧
    (shrinkVulkan.commands.EnumerateInstanceExtensionProperties.fillBuf 2).1 = Vk.SUCCESS ∧
    (shrinkVulkan.commands.EnumerateInstanceExtensionProperties.fillBuf 2).2.1 = 1 ∧
    Vulkan.enum_extensions shrinkVulkan =
      Except.ok [ExtensionPropertiesDefault, ExtensionPropertiesDefault] ∧
    ¬ ([ExtensionPropertiesDefault, ExtensionPropertiesDefault].length =
        (shrinkVulkan.commands.EnumerateInstanceExtensionProperties.fillBuf 2).2.1) := by
  refine ⟨rfl, rfl, rfl, rfl, ?_⟩
  decide

/-- Claim C1 (amended): for every two-call enumeration, whenever the
operation returns a sequence (both native calls succeeded), the sequence's
length equals the count reported by the first (count) call: the buffer is
sized by the first count and never truncated; the count written back by
the second (filling) call is ignored. -/
theorem spec_C1_thm : ∀ (v : Vulkan) (i : Instance) (pd : Nat),
    (∀ l, Vulkan.enum_extensions v = Except.ok l →
      l.length = v.commands.EnumerateInstanceExtensionProperties.queryCount.2)
  ∧ (∀ l, Vulkan.enum_layers v = Except.ok l →
      l.length = v.commands.EnumerateInstanceLayerProperties.queryCount.2)
  ∧ (∀ l, Instance.enum_physical_devices i = Except.ok l →
      l.length = i.commands.EnumeratePhysicalDevices.queryCount.2)
  ∧ (∀ l, Instance.enum_physical_device_extensions i pd = Except.ok l →
      l.length = (i.commands.EnumerateDeviceExtensionProperties pd).queryCount.2) := by
  intro v i pd
  refine ⟨?_, ?_, ?_, ?_⟩
  · intro l h
    simp only [Vulkan.enum_extensions] at h
    split at h
    · split at h
      · rw [Except.ok.injEq] at h
        rw [← h, writeInto_length, List.length_replicate]
      · exact absurd h (by simp)
    · exact absurd h (by simp)
  · intro l h
    simp only [Vulkan.enum_layers] at h
    split at h
    · split at h
      · rw [Except.ok.injEq] at h
        rw [← h, writeInto_length, List.length_replicate]
      · exact absurd h (by simp)
    · exact absurd h (by simp)
  · intro l h
    simp only [Instance.enum_physical_devices] at h
    split at h
    · split at h
      · rw [Except.ok.injEq] at h
        rw [← h, writeInto_length, List.length_replicate]
      · exact absurd h (by simp)
    · exact absurd h (by simp)
  · intro l h
    simp only [Instance.enum_physical_device_extensions] at h
    split at h
    · split at h
      · rw [Except.ok.injEq] at h
        rw [← h, writeInto_length, List.length_replicate]
      · exact absurd h (by simp)
    · exact absurd h (by simp)

/-- Claim C1, witness: the amended theorem applied to the shrinking driver
and the demo connection. -/
theorem spec_C1_witness :
    Vulkan.enum_extensions shrinkVulkan =
      Except.ok [ExtensionPropertiesDefault, ExtensionPropertiesDefault] ∧
    (([ExtensionPropertiesDefault, ExtensionPropertiesDefault] :
        List Vk.ExtensionProperties).length =
      shrinkVulkan.commands.EnumerateInstanceExtensionProperties.queryCount.2) ∧
    Instance.enum_physical_devices demoInstance = Except.ok [5] ∧
    ([5] : List Nat).length = demoInstance.commands.EnumeratePhysicalDevices.queryCount.2 := by
  refine ⟨rfl, ?_, rfl, ?_⟩
  · exact (spec_C1_thm shrinkVulkan demoInstance 0).1 _ rfl
  · exact (spec_C1_thm shrinkVulkan demoInstance 0).2.2.1 _ rfl

/-- Claim C2, code-bug demonstration: the buffer
`queue_family_properties` passes to the fill call is allocated with
`MaybeUninit::uninit().assume_init()` — truly uninitialized memory, not
default-initialized.  Concretely: with a driver whose count call reports
2 but whose fill call writes only 1 record, the slot beyond the written
region still holds uninitialized memory (`none`), and that slot is
returned to the caller.  The allocation itself (`qfpAlloc`) contains no
default-initialized cell at all. -/
theorem spec_C2_thm :
    qfpAlloc 2 = [none, none] ∧
    (∀ c ∈ qfpAlloc 2, c ≠ some zeroedQfp) ∧
    Instance.enum_physical_device_queue_family_properties demoInstance 0 =
      [some demoQfp, none] := by
  refine ⟨rfl, ?_, rfl⟩
  decide

/-- Claim C3: for every fallible enumeration and creation operation, a
non-success status from a native call is returned verbatim as the
operation's error, with no retry; a failed second (fill) enumeration call
discards the partially filled buffer (the result is exactly the error, no
partial sequence). -/
theorem spec_C3_thm : ∀ (v : Vulkan) (i : Instance) (pd : Nat)
    (rc : Nat → Vk.InstanceCommands) (an en : List Nat) (ls es : List (List Nat))
    (pd2 : Nat) (exts : List (List Nat)) (qs : List (Nat × Nat))
    (fts : Option Vk.PhysicalDeviceFeatures),
    (v.commands.EnumerateInstanceExtensionProperties.queryCount.1 ≠ Vk.SUCCESS →
      Vulkan.enum_extensions v =
        Except.error v.commands.EnumerateInstanceExtensionProperties.queryCount.1)
  ∧ (v.commands.EnumerateInstanceExtensionProperties.queryCount.1 = Vk.SUCCESS →
      (v.commands.EnumerateInstanceExtensionProperties.fillBuf
          v.commands.EnumerateInstanceExtensionProperties.queryCount.2).1 ≠ Vk.SUCCESS →
      Vulkan.enum_extensions v =
        Except.error (v.commands.EnumerateInstanceExtensionProperties.fillBuf
          v.commands.EnumerateInstanceExtensionProperties.queryCount.2).1)
  ∧ (v.commands.EnumerateInstanceLayerProperties.queryCount.1 ≠ Vk.SUCCESS →
      Vulkan.enum_layers v =
        Except.error v.commands.EnumerateInstanceLayerProperties.queryCount.1)
  ∧ (v.commands.EnumerateInstanceLayerProperties.queryCount.1 = Vk.SUCCESS →
      (v.commands.EnumerateInstanceLayerProperties.fillBuf
          v.commands.EnumerateInstanceLayerProperties.queryCount.2).1 ≠ Vk.SUCCESS →
      Vulkan.enum_layers v =
        Except.error (v.commands.EnumerateInstanceLayerProperties.fillBuf
          v.commands.EnumerateInstanceLayerProperties.queryCount.2).1)
  ∧ (i.commands.EnumeratePhysicalDevices.queryCount.1 ≠ Vk.SUCCESS →
      Instance.enum_physical_devices i =
        Except.error i.commands.EnumeratePhysicalDevices.queryCount.1)
  ∧ (i.commands.EnumeratePhysicalDevices.queryCount.1 = Vk.SUCCESS →
      (i.commands.EnumeratePhysicalDevices.fillBuf
          i.commands.EnumeratePhysicalDevices.queryCount.2).1 ≠ Vk.SUCCESS →
      Instance.enum_physical_devices i =
        Except.error (i.commands.EnumeratePhysicalDevices.fillBuf
          i.commands.EnumeratePhysicalDevices.queryCount.2).1)
  ∧ ((i.commands.EnumerateDeviceExtensionProperties pd).queryCount.1 ≠ Vk.SUCCESS →
      Instance.enum_physical_device_extensions i pd =
        Except.error (i.commands.EnumerateDeviceExtensionProperties pd).queryCount.1)
  ∧ ((i.commands.EnumerateDeviceExtensionProperties pd).queryCount.1 = Vk.SUCCESS →
      ((i.commands.EnumerateDeviceExtensionProperties pd).fillBuf
          (i.commands.EnumerateDeviceExtensionProperties pd).queryCount.2).1 ≠ Vk.SUCCESS →
      Instance.enum_physical_device_extensions i pd =
        Except.error ((i.commands.EnumerateDeviceExtensionProperties pd).fillBuf
          (i.commands.EnumerateDeviceExtensionProperties pd).queryCount.2).1)
  ∧ (0 ∉ an → 0 ∉ en → (∀ l ∈ ls, 0 ∉ l) → (∀ e ∈ es, 0 ∉ e) →
      (v.commands.CreateInstance (Instance.buildInfo (an ++ [0]) (en ++ [0])
          (ls.map (· ++ [0])) (es.map (· ++ [0])))).1 ≠ Vk.SUCCESS →
      Instance.new v rc an en ls es =
        Outcome.returns
          (Except.error (v.commands.CreateInstance (Instance.buildInfo (an ++ [0]) (en ++ [0])
              (ls.map (· ++ [0])) (es.map (· ++ [0])))).1,
           Vulkan.dropTrace v))
  ∧ ((∀ e ∈ exts, 0 ∉ e) →
      (i.commands.CreateDevice pd2
          (Device.buildInfo qs (exts.map (· ++ [0])) fts)).1 ≠ Vk.SUCCESS →
      Device.new i pd2 exts qs fts =
        Outcome.returns (Except.error (i.commands.CreateDevice pd2
          (Device.buildInfo qs (exts.map (· ++ [0])) fts)).1)) := by
  intro v i pd rc an en ls es pd2 exts qs fts
  refine ⟨?_, ?_, ?_, ?_, ?_, ?_, ?_, ?_, ?_, ?_⟩
  · intro h1
    simp only [Vulkan.enum_extensions]
    rw [if_neg h1]
  · intro h1 h2
    simp only [Vulkan.enum_extensions]
    rw [if_pos h1, if_neg h2]
  · intro h1
    simp only [Vulkan.enum_layers]
    rw [if_neg h1]
  · intro h1 h2
    simp only [Vulkan.enum_layers]
    rw [if_pos h1, if_neg h2]
  · intro h1
    simp only [Instance.enum_physical_devices]
    rw [if_neg h1]
  · intro h1 h2
    simp only [Instance.enum_physical_devices]
    rw [if_pos h1, if_neg h2]
  · intro h1
    simp only [Instance.enum_physical_device_extensions]
    rw [if_neg h1]
  · intro h1 h2
    simp only [Instance.enum_physical_device_extensions]
    rw [if_pos h1, if_neg h2]
  · intro h1 h2 h3 h4 h5
    simp only [Instance.new, CString.new_of_not_mem h1, CString.new_of_not_mem h2,
      CString.newAll_of_not_mem h3, CString.newAll_of_not_mem h4, unwrapO]
    rw [if_neg h5]
  · intro h1 h2
    simp only [Device.new, CString.newAll_of_not_mem h1, unwrapO]
    rw [if_neg h2]

/-- Claim C3, witness: the theorem applied to drivers that fail the count
call (status -1), the fill call (status -4), `CreateInstance`
(status -3) and `CreateDevice` (status -2). -/
theorem spec_C3_witness :
    Vulkan.enum_extensions failCountVulkan = Except.error (-1) ∧
    Vulkan.enum_extensions failFillVulkan = Except.error (-4) ∧
    Instance.new failVulkan (fun _ => demoInstCommands) [97] [98] [] [] =
      Outcome.returns (Except.error (-3), [Event.releaseLibrary]) ∧
    Device.new failDevInstance 4 [[99]] [(0, 1)] none =
      Outcome.returns (Except.error (-2)) := by
  refine ⟨?_, ?_, ?_, ?_⟩
  · exact (spec_C3_thm failCountVulkan demoInstance 0 (fun _ => demoInstCommands)
      [] [] [] [] 0 [] [] none).1 (by decide)
  · exact (spec_C3_thm failFillVulkan demoInstance 0 (fun _ => demoInstCommands)
      [] [] [] [] 0 [] [] none).2.1 rfl (by decide)
  · exact (spec_C3_thm failVulkan demoInstance 0 (fun _ => demoInstCommands)
      [97] [98] [] [] 0 [] [] none).2.2.2.2.2.2.2.2.1
      (by decide) (by decide) (by decide) (by decide) (by decide)
  · exact (spec_C3_thm demoVulkan failDevInstance 0 (fun _ => demoInstCommands)
      [] [] [] [] 4 [[99]] [(0, 1)] none).2.2.2.2.2.2.2.2.2
      (by decide) (by decide)

/-- Claim C4, counterexample: two connections that differ in their native
instance handle produce, from the same `create_device` arguments, results
that are equal — and the successful result is a `Device` made of nothing
but the native device handle and its resolved function table.  The
returned Device Handle therefore holds no back-reference to the
Connection that created it. -/
theorem spec_C4_cex :
    Device.new demoInstance 0 [] [] none = Device.new demoInstance2 0 [] [] none ∧
    Device.new demoInstance 0 [] [] none =
      Outcome.returns (Except.ok
        { device := 7
          commands := { GetDeviceQueue := 170, QueueWaitIdle := 171, DestroyDevice := 172 } }) ∧
    demoInstance.inst ≠ demoInstance2.inst := by
  refine ⟨rfl, rfl, ?_⟩
  decide

/-- Claim C4 (amended): a successful `create_device` call returns a Device
Handle consisting only of the native device object and its function
table; the Connection is consulted during construction only through its
`CreateDevice` entry and its device-scoped resolver `GetDeviceProcAddr`
(so two connections agreeing on those two entries yield identical
results), and the table of the returned device is exactly the one
resolved via the creating connection's resolver.  No reference to the
Connection is retained, so the caller must separately keep the Connection
alive for the device's lifetime. -/
theorem spec_C4_thm : ∀ (i1 i2 : Instance) (pd : Nat) (exts : List (List Nat))
    (qs : List (Nat × Nat)) (fts : Option Vk.PhysicalDeviceFeatures),
    (i1.commands.CreateDevice = i2.commands.CreateDevice →
     i1.commands.GetDeviceProcAddr = i2.commands.GetDeviceProcAddr →
     Device.new i1 pd exts qs fts = Device.new i2 pd exts qs fts)
  ∧ (∀ d, Device.new i1 pd exts qs fts = Outcome.returns (Except.ok d) →
      d.commands = Vk.DeviceCommands.new i1.commands.GetDeviceProcAddr d.device) := by
  intro i1 i2 pd exts qs fts
  constructor
  · intro h1 h2
    simp only [Device.new]
    rw [h1, h2]
  · intro d h
    simp only [Device.new] at h
    cases hc : CString.newAll exts with
    | none => rw [hc] at h; exact absurd h (by simp [unwrapO])
    | some cs =>
        rw [hc] at h
        simp only [unwrapO] at h
        split at h
        · rw [Outcome.returns.injEq, Except.ok.injEq] at h
          rw [← h]
        · exact absurd h (by simp)

/-- Claim C4, witness: the amended theorem applied to the two demo
connections (handles 1 and 2) at a nonzero adapter. -/
theorem spec_C4_witness :
    Device.new demoInstance 1 [] [] none = Device.new demoInstance2 1 [] [] none ∧
    ({ device := 7
       commands := { GetDeviceQueue := 170, QueueWaitIdle := 171, DestroyDevice := 172 } }
        : Device).commands =
      Vk.DeviceCommands.new demoInstance.commands.GetDeviceProcAddr 7 := by
  constructor
  · exact (spec_C4_thm demoInstance demoInstance2 1 [] [] none).1 rfl rfl
  · exact (spec_C4_thm demoInstance demoInstance2 1 [] [] none).2 _ rfl

/-- Claim C5, counterexample: with a driver whose `CreateInstance` fails
(status -3) and NUL-free names, `Instance::new` returns the status error
and the teardown events of the failing call already include the release
of the dynamic library: the `Vulkan` bootstrap was moved into the call
and is dropped as it returns, so the Library Handle is not usable
afterward for a retry. -/
theorem spec_C5_cex :
    Instance.new failVulkan (fun _ => demoInstCommands) [97] [101] [] [] =
      Outcome.returns (Except.error (-3), [Event.releaseLibrary]) ∧
    ¬ Event.releaseLibrary ∉ ([Event.releaseLibrary] : List Event) := by
  refine ⟨rfl, ?_⟩
  decide

/-- Claim C5 (amended): when `create_connection` fails with a status
error, the operation returns exactly that status, and the Library Handle
/ Driver Bootstrap — having been moved into the call — is dropped before
the call returns, releasing the dynamic library.  The caller cannot
retry with the same Library Handle; a retry requires loading a new one. -/
theorem spec_C5_thm : ∀ (v : Vulkan) (rc : Nat → Vk.InstanceCommands)
    (an en : List Nat) (ls es : List (List Nat)),
    0 ∉ an → 0 ∉ en → (∀ l ∈ ls, 0 ∉ l) → (∀ e ∈ es, 0 ∉ e) →
    (v.commands.CreateInstance (Instance.buildInfo (an ++ [0]) (en ++ [0])
        (ls.map (· ++ [0])) (es.map (· ++ [0])))).1 ≠ Vk.SUCCESS →
    Instance.new v rc an en ls es =
      Outcome.returns
        (Except.error (v.commands.CreateInstance (Instance.buildInfo (an ++ [0]) (en ++ [0])
            (ls.map (· ++ [0])) (es.map (· ++ [0])))).1,
         Vulkan.dropTrace v) ∧
    Event.releaseLibrary ∈ Vulkan.dropTrace v := by
  intro v rc an en ls es h1 h2 h3 h4 h5
  constructor
  · simp only [Instance.new, CString.new_of_not_mem h1, CString.new_of_not_mem h2,
      CString.newAll_of_not_mem h3, CString.newAll_of_not_mem h4, unwrapO]
    rw [if_neg h5]
  · simp [Vulkan.dropTrace]

/-- Claim C5, witness: the amended theorem applied to the failing driver
with names "b" and "f". -/
theorem spec_C5_witness :
    Instance.new failVulkan (fun _ => demoInstCommands) [98] [102] [] [] =
      Outcome.returns (Except.error (-3), [Event.releaseLibrary]) ∧
    Event.releaseLibrary ∈ Vulkan.dropTrace failVulkan := by
  exact spec_C5_thm failVulkan (fun _ => demoInstCommands) [98] [102] [] []
    (by decide) (by decide) (by decide) (by decide) (by decide)

theorem le_foldlMax (qs : List (Nat × Nat)) (a : Nat) :
    a ≤ qs.foldl (fun max p => Nat.max p.2 max) a := by
  induction qs generalizing a with
  | nil => exact Nat.le_refl a
  | cons q qs ih => exact Nat.le_trans (Nat.le_max_right q.2 a) (ih (Nat.max q.2 a))

theorem mem_le_foldlMax (qs : List (Nat × Nat)) (a : Nat) :
    ∀ p ∈ qs, p.2 ≤ qs.foldl (fun max p => Nat.max p.2 max) a := by
  induction qs generalizing a with
  | nil => intro p hp; simp at hp
  | cons q qs ih =>
      intro p hp
      rcases List.mem_cons.mp hp with rfl | hp
      · exact Nat.le_trans (Nat.le_max_left p.2 a) (le_foldlMax qs (Nat.max p.2 a))
      · exact ih (Nat.max q.2 a) p hp

theorem foldlMax_attained (qs : List (Nat × Nat)) (a : Nat) :
    qs.foldl (fun max p => Nat.max p.2 max) a = a ∨
      ∃ p ∈ qs, qs.foldl (fun max p => Nat.max p.2 max) a = p.2 := by
  induction qs generalizing a with
  | nil => exact Or.inl rfl
  | cons q qs ih =>
      rcases ih (Nat.max q.2 a) with h | ⟨p, hp, hval⟩
      · rcases Nat.le_total q.2 a with hle | hle
        · refine Or.inl ?_
          rw [List.foldl_cons, h]
          exact Nat.max_eq_right hle
        · refine Or.inr ⟨q, List.mem_cons_self q qs, ?_⟩
          rw [List.foldl_cons, h]
          exact Nat.max_eq_left hle
      · exact Or.inr ⟨p, List.mem_cons_of_mem q hp, hval⟩

/-- Claim C6: `create_device` builds a single shared priority array whose
length is the maximum requested queue count over all families (an upper
bound of every request, attained by some request when the list is
nonempty, and zero for the empty list), every element of the array is
`1.0`, and every per-family creation record's `pQueuePriorities` is that
same shared array. -/
theorem spec_C6_thm : ∀ qs : List (Nat × Nat),
    (Device.priorities qs).length = Device.maxQueues qs
  ∧ (∀ p ∈ qs, p.2 ≤ (Device.priorities qs).length)
  ∧ (qs = [] → (Device.priorities qs).length = 0)
  ∧ (qs ≠ [] → ∃ p ∈ qs, p.2 = (Device.priorities qs).length)
  ∧ (∀ x ∈ Device.priorities qs, x = 1.0)
  ∧ (∀ qi ∈ Device.queueInfos qs, qi.pQueuePriorities = Device.priorities qs) := by
  intro qs
  have hlen : (Device.priorities qs).length = Device.maxQueues qs := by
    simp [Device.priorities]
  refine ⟨hlen, ?_, ?_, ?_, ?_, ?_⟩
  · intro p hp
    rw [hlen]
    exact mem_le_foldlMax qs 0 p hp
  · intro h
    rw [hlen, h]
    rfl
  · intro hne
    rw [hlen]
    rcases foldlMax_attained qs 0 with h0 | ⟨p, hp, hval⟩
    · cases qs with
      | nil => exact absurd rfl hne
      | cons q qs =>
          refine ⟨q, List.mem_cons_self q qs, ?_⟩
          have hq : q.2 ≤ 0 := by
            have h2 := mem_le_foldlMax (q :: qs) 0 q (List.mem_cons_self q qs)
            rw [h0] at h2
            exact h2
          simp only [Device.maxQueues]
          rw [h0]
          omega
    · exact ⟨p, hp, hval.symm⟩
  · intro x hx
    exact (List.eq_of_mem_replicate hx)
  · intro qi hqi
    rcases List.mem_map.mp hqi with ⟨p, _, rfl⟩
    rfl

/-- Claim C6, witness: the theorem applied to the request list
`[(0, 2), (1, 3)]`: the shared array has length 3 = max(2, 3), and both
creation records point at it. -/
theorem spec_C6_witness :
    Device.maxQueues [(0, 2), (1, 3)] = 3 ∧
    (Device.priorities [(0, 2), (1, 3)]).length = Device.maxQueues [(0, 2), (1, 3)] ∧
    (∀ p ∈ ([(0, 2), (1, 3)] : List (Nat × Nat)),
      p.2 ≤ (Device.priorities [(0, 2), (1, 3)]).length) ∧
    (∀ qi ∈ Device.queueInfos [(0, 2), (1, 3)],
      qi.pQueuePriorities = Device.priorities [(0, 2), (1, 3)]) := by
  refine ⟨rfl, ?_, ?_, ?_⟩
  · exact (spec_C6_thm [(0, 2), (1, 3)]).1
  · exact (spec_C6_thm [(0, 2), (1, 3)]).2.1
  · exact (spec_C6_thm [(0, 2), (1, 3)]).2.2.2.2.2

/-- Claim C7: dropping a Connection Handle invokes the native
destroy-connection operation strictly before the library handle is
released (the destroy event occurs at an earlier position of the drop
trace than the release event), and the combined teardown of a Device
dropped before its Instance is exactly
device-destroy, then connection-destroy, then library-release. -/
theorem spec_C7_thm : ∀ (d : Device) (i : Instance),
    Instance.dropTrace i = [Event.destroyInstance i.inst, Event.releaseLibrary]
  ∧ (∃ k1 k2, k1 < k2 ∧
      (Instance.dropTrace i).get? k1 = some (Event.destroyInstance i.inst) ∧
      (Instance.dropTrace i).get? k2 = some Event.releaseLibrary)
  ∧ Device.dropTrace d ++ Instance.dropTrace i =
      [Event.destroyDevice d.device, Event.destroyInstance i.inst, Event.releaseLibrary] := by
  intro d i
  exact ⟨rfl, ⟨0, 1, Nat.zero_lt_one, rfl, rfl⟩, rfl⟩

/-- Claim C8: decoding a fixed-size character buffer that contains a
terminator is deterministic and idempotent — decoding the same buffer
twice yields identical text, whatever bytes happen to lie beyond the
slice; the buffer is read as a null-terminated byte string (the result is
the lossy decoding of the bytes before the first zero); and an invalid
byte (0xFF can start no UTF-8 sequence) is replaced by U+FFFD rather than
failing. -/
theorem spec_C8_thm : ∀ (buf t1 t2 junk : List Nat), 0 ∈ buf →
    string_from_c_str buf t1 = string_from_c_str buf t1
  ∧ string_from_c_str buf t1 = string_from_c_str buf t2
  ∧ string_from_c_str buf t1 =
      String.mk (utf8Lossy (buf.takeWhile (fun b => b != 0)))
  ∧ utf8Lossy (0xFF :: junk) = replacementChar :: utf8Lossy junk := by
  intro buf t1 t2 junk h
  refine ⟨rfl, ?_, ?_, ?_⟩
  · simp only [string_from_c_str]
    rw [cStrToBytes_append_of_mem t1 h, cStrToBytes_append_of_mem t2 h]
  · simp only [string_from_c_str]
    rw [cStrToBytes_append_of_mem t1 h]
    rfl
  · rw [utf8Lossy.eq_def]
    norm_num

/-- Claim C8, witness: the theorem applied to the buffer `[104, 0]` with
two different byte sequences beyond the slice. -/
theorem spec_C8_witness :
    string_from_c_str [104, 0] [] = string_from_c_str [104, 0] [7, 7] ∧
    string_from_c_str [104, 0] [] =
      String.mk (utf8Lossy (([104, 0] : List Nat).takeWhile (fun b => b != 0))) ∧
    utf8Lossy [0xFF] = [replacementChar] := by
  have h := spec_C8_thm [104, 0] [] [7, 7] [] (by decide)
  exact ⟨h.2.1, h.2.2.1, h.2.2.2⟩

/-- Claim C9: passing a string with an interior NUL byte as the
application name, engine name, a layer name or an extension name to
`Instance::new`, or as an extension name to `Device::new`, makes the
operation panic (the `unwrap` on `CString::new` aborts) instead of
returning a discriminated status error. -/
theorem spec_C9_thm : ∀ (v : Vulkan) (rc : Nat → Vk.InstanceCommands)
    (an en : List Nat) (ls es : List (List Nat)) (i : Instance) (pd : Nat)
    (exts : List (List Nat)) (qs : List (Nat × Nat))
    (fts : Option Vk.PhysicalDeviceFeatures),
    ((0 ∈ an ∨ 0 ∈ en ∨ (∃ l ∈ ls, 0 ∈ l) ∨ (∃ e ∈ es, 0 ∈ e)) →
      Instance.new v rc an en ls es = Outcome.panics)
  ∧ ((∃ e ∈ exts, 0 ∈ e) → Device.new i pd exts qs fts = Outcome.panics) := by
  intro v rc an en ls es i pd exts qs fts
  constructor
  · intro h
    rcases h with h | h | h | h
    · simp [Instance.new, CString.new_eq_none h, unwrapO]
    · cases hA : CString.new an with
      | none => simp [Instance.new, hA, unwrapO]
      | some a => simp [Instance.new, hA, CString.new_eq_none h, unwrapO]
    · cases hA : CString.new an with
      | none => simp [Instance.new, hA, unwrapO]
      | some a =>
          cases hE : CString.new en with
          | none => simp [Instance.new, hA, hE, unwrapO]
          | some e => simp [Instance.new, hA, hE, CString.newAll_eq_none h, unwrapO]
    · cases hA : CString.new an with
      | none => simp [Instance.new, hA, unwrapO]
      | some a =>
          cases hE : CString.new en with
          | none => simp [Instance.new, hA, hE, unwrapO]
          | some e =>
              cases hL : CString.newAll ls with
              | none => simp [Instance.new, hA, hE, hL, unwrapO]
              | some lcs =>
                  simp [Instance.new, hA, hE, hL, CString.newAll_eq_none h, unwrapO]
  · intro h
    simp [Device.new, CString.newAll_eq_none h, unwrapO]

/-- Claim C9, witness: the theorem applied to an application name and a
device extension name each containing an interior NUL byte. -/
theorem spec_C9_witness :
    Instance.new demoVulkan (fun _ => demoInstCommands) [97, 0, 98] [] [] [] =
      Outcome.panics ∧
    Device.new demoInstance 0 [[99, 0]] [] none = Outcome.panics := by
  have h := spec_C9_thm demoVulkan (fun _ => demoInstCommands) [97, 0, 98] [] [] []
    demoInstance 0 [[99, 0]] [] none
  exact ⟨h.1 (Or.inl (by decide)), h.2 ⟨[99, 0], by decide, by decide⟩⟩

/-- Claim C10: `string_from_c_str` has the unstated precondition that the
slice contain a zero byte.  When it does, the result is the lossy UTF-8
decoding of exactly the bytes before the first zero, independent of
whatever lies in memory after the slice; when it does not, the underlying
C-string scan consumes the whole slice and keeps reading the adjacent
memory past the end of the slice. -/
theorem spec_C10_thm : ∀ (buf tail : List Nat),
    (0 ∈ buf →
      ∀ after : List Nat,
        string_from_c_str buf after =
          String.mk (utf8Lossy (buf.takeWhile (fun b => b != 0))))
  ∧ (0 ∉ buf → cStrToBytes (buf ++ tail) = buf ++ cStrToBytes tail) := by
  intro buf tail
  constructor
  · intro h after
    simp only [string_from_c_str]
    rw [cStrToBytes_append_of_mem after h]
    rfl
  · intro h
    exact cStrToBytes_append_of_not_mem tail h

/-- Claim C10, witness: the theorem applied to the buffer `[105, 0, 9]`
(whose decode ignores both the byte after the zero and the memory after
the slice) and to the zero-free buffer `[106]` followed in memory by
`[0, 8]` (whose scan runs past the end of the slice and stops at the zero
it finds there). -/
theorem spec_C10_witness :
    string_from_c_str [105, 0, 9] [3, 4] =
      String.mk (utf8Lossy (([105, 0, 9] : List Nat).takeWhile (fun b => b != 0))) ∧
    cStrToBytes ([106] ++ [0, 8]) = [106] ++ cStrToBytes [0, 8] := by
  have h := spec_C10_thm [105, 0, 9] [0, 8]
  have h2 := spec_C10_thm [106] [0, 8]
  exact ⟨h.1 (by decide) [3, 4], h2.2 (by decide)⟩
